import Mathlib

/-!
Verification development for the uwazi-agents repository.

The repository exposes three tools over a CMS collaborator:
`get_all_templates`, `get_all_entities` and `create_template`.
Two source files implement them:

* `src/uwazi_agents/create_template.py` (modelled in namespace `CT`):
  property cleaning with validation warnings and label-derived names,
  paginated entity fetch, XML rendering with `<item>` children for
  sequence metadata values, error-tagged failure payloads.
* `src/uwazi_agents/use_cases/uwazi_agent_interface.py` (namespace `UAI`):
  the plainer variant with silent drops, no name derivation and empty
  XML stubs on failure.

Python dictionaries are embedded as ordered association lists over a
flat value universe (strings, booleans, integers); Python dictionaries
preserve insertion order, and adding a new key appends at the end.
-/

namespace UwaziAgents

/-- Primitive Python value appearing in property dictionaries and
entity metadata: a string, a boolean, or an integer. -/
inductive PVal where
  | str : String → PVal
  | bool : Bool → PVal
  | int : Int → PVal
deriving DecidableEq, Repr

/-- Python truthiness of a primitive value: empty string, `False` and
`0` are falsy, everything else is truthy. -/
def PVal.truthy : PVal → Bool
  | .str s => s != ""
  | .bool b => b
  | .int n => n != 0

/-- Python `str()` of a primitive value. -/
def PVal.pyStr : PVal → String
  | .str s => s
  | .bool b => if b then "True" else "False"
  | .int n => toString n

/-- Python `repr()` of a primitive value (string escaping of special
characters inside the string is not modelled). -/
def PVal.pyRepr : PVal → String
  | .str s => "\x27" ++ s ++ "\x27"
  | .bool b => if b then "True" else "False"
  | .int n => toString n

/-- A Python dictionary with string keys, embedded as an ordered
association list; lookups return the first binding of a key. -/
abbrev Dict := List (String × PVal)

/-- Python `k in d` membership test on dictionary keys. -/
def hasKey (d : Dict) (k : String) : Bool := (d.lookup k).isSome

/-- A raw element of the `properties` argument: either a dictionary or
some non-dictionary value (the code only inspects whether it is a
dictionary). -/
inductive RawProp where
  | dict : Dict → RawProp
  | prim : PVal → RawProp
deriving DecidableEq, Repr

/-- The `valid_property_fields` allow-list from the source. -/
def valid_property_fields : List String :=
  ["label", "type", "name", "required", "showInCard", "filter",
   "defaultfilter", "prioritySorting", "noLabel", "style",
   "generatedId", "isCommonProperty"]

/-- The `valid_property_types` enumeration from the source. -/
def valid_property_types : List String :=
  ["text", "markdown", "numeric", "date", "link", "select",
   "multiselect", "relationship", "nested", "image", "media",
   "preview", "geolocation"]

/-- Python `prop["type"] in valid_property_types`: only a string value
can equal a member of a set of strings. -/
def isValidType : PVal → Bool
  | .str s => valid_property_types.contains s
  | _ => false

/-- The dictionary comprehension keeping only allow-listed keys
(`{key: value for key, value in prop.items() if key in valid_property_fields}`). -/
def filterValidFields (d : Dict) : Dict :=
  d.filter (fun kv => valid_property_fields.contains kv.1)

/-- Python substring test `pattern in s`. -/
def strContains (s pattern : String) : Bool :=
  decide (List.IsInfix pattern.toList s.toList)

/-- The three configuration values read from the environment; `none`
models an unset variable, and Python treats both `None` and the empty
string as falsy in `all([url, user, password])`. -/
structure Config where
  url : Option String
  user : Option String
  password : Option String
deriving DecidableEq, Repr

/-- Python truthiness of one configuration value. -/
def configValTruthy : Option String → Bool
  | none => false
  | some s => s != ""

/-- The guard `all([url, user, password])` shared by every tool. -/
def credentialsPresent (c : Config) : Bool :=
  configValTruthy c.url && configValTruthy c.user && configValTruthy c.password

/-! ### Property cleaning, create_template.py variant (namespace CT) -/

/-- Warning emitted for a non-dictionary entry (create_template.py line 402). -/
def notDictWarning (idx : Nat) : String :=
  "Property at index " ++ toString idx ++ " is not a dictionary, skipping"

/-- Warning emitted for an entry without a `type` key (line 406). -/
def missingTypeWarning (idx : Nat) : String :=
  "Property at index " ++ toString idx ++ " missing \x27type\x27 field, skipping"

/-- Warning emitted for an entry whose `type` is not in the enumeration
(line 410); the offending value is interpolated with `str()`. -/
def invalidTypeWarning (idx : Nat) (tv : PVal) : String :=
  "Property at index " ++ toString idx ++ " has invalid type \x27" ++ tv.pyStr ++ "\x27, skipping"

/-- Warning emitted when `label` is absent and defaulted (line 417). -/
def missingLabelWarning (idx : Nat) : String :=
  "Property at index " ++ toString idx ++ " missing \x27label\x27, using empty string"

/-- The `AttributeError` message raised by `label.lower()` when the label
value is not a string. -/
def lowerAttrError : PVal → String
  | .str _ => "\x27str\x27 object has no attribute \x27lower\x27"
  | .bool _ => "\x27bool\x27 object has no attribute \x27lower\x27"
  | .int _ => "\x27int\x27 object has no attribute \x27lower\x27"

/-- Lines 415-417: default an absent `label` to the empty string,
recording a warning; Python dictionary assignment of a fresh key
appends at the end. -/
def defaultLabel (idx : Nat) (cp : Dict) : Dict × List String :=
  if hasKey cp "label" then (cp, [])
  else (cp ++ [("label", PVal.str "")], [missingLabelWarning idx])

/-- Python `label.lower().replace(" ", "_")`, embedded character-wise:
lower-case every character, then replace every space by an underscore.
Since the replaced pattern is the single space character, the substring
replacement is exactly this character-wise map. The case mapping uses
`Char.toLower`, which lower-cases exactly the ASCII letters `A`-`Z`;
on strings of ASCII characters this coincides exactly with Python
`str.lower()` (which on ASCII also maps only `A`-`Z`, with no context
rules). Python's full Unicode case conversion (tabled mappings, the
final-sigma context rule, length-changing mappings such as U+0130) is
outside this embedding, so statements about the derived value are made
only for ASCII labels. -/
def derive_name (s : String) : String :=
  String.mk ((s.data.map Char.toLower).map (fun c => if c = ' ' then '_' else c))

/-- Lines 420-421: when `name` is absent and `label` is truthy, derive
`name` as `label.lower().replace(" ", "_")`; a truthy non-string label
raises `AttributeError` on `.lower()`, modelled as the error case. -/
def deriveNameStep (cp : Dict) : Except String Dict
  := if hasKey cp "name" then .ok cp
     else match cp.lookup "label" with
          | none => .ok cp
          | some lv =>
            if lv.truthy then
              match lv with
              | .str s => .ok (cp ++ [("name", PVal.str (derive_name s))])
              | _ => .error (lowerAttrError lv)
            else .ok cp

/-- One iteration of the cleaning loop of create_template.py
(lines 400-423): either a dropped entry with its warning, or a cleaned
dictionary together with the warnings it produced; the error case is a
raised `AttributeError` from name derivation. -/
def cleanOne (idx : Nat) : RawProp → Except String (Option Dict × List String)
  | .prim _ => .ok (none, [notDictWarning idx])
  | .dict d =>
    match d.lookup "type" with
    | none => .ok (none, [missingTypeWarning idx])
    | some tv =>
      if isValidType tv then
        let step := defaultLabel idx (filterValidFields d)
        match deriveNameStep step.1 with
        | .error e => .error e
        | .ok cp => .ok (some cp, step.2)
      else .ok (none, [invalidTypeWarning idx tv])

/-- The whole cleaning loop of create_template.py starting at a given
`enumerate` index: the list of cleaned properties and the accumulated
validation warnings, or the first raised exception. -/
def cleanPropsFrom (idx : Nat) : List RawProp → Except String (List Dict × List String)
  | [] => .ok ([], [])
  | p :: ps =>
    match cleanOne idx p with
    | .error e => .error e
    | .ok head =>
      match cleanPropsFrom (idx + 1) ps with
      | .error e => .error e
      | .ok rest => .ok (head.1.toList ++ rest.1, head.2 ++ rest.2)

/-- The cleaning loop of create_template.py (`enumerate` starts at 0). -/
def cleanProps (props : List RawProp) : Except String (List Dict × List String) :=
  cleanPropsFrom 0 props

/-! ### Property cleaning, uwazi_agent_interface.py variant -/

/-- One iteration of the cleaning loop of uwazi_agent_interface.py
(lines 245-260): silent drops, no warnings, no name derivation. -/
def cleanOneUAI : RawProp → Option Dict
  | .prim _ => none
  | .dict d =>
    match d.lookup "type" with
    | none => none
    | some tv =>
      if isValidType tv then
        let cp := filterValidFields d
        some (if hasKey cp "label" then cp else cp ++ [("label", PVal.str "")])
      else none

/-- The whole cleaning loop of uwazi_agent_interface.py. -/
def cleanPropsUAI (props : List RawProp) : List Dict :=
  props.filterMap cleanOneUAI

/-! ### The submitted template payload -/

/-- The fixed `Title` common property descriptor. -/
def titleCommonProp : Dict :=
  [("label", PVal.str "Title"), ("name", PVal.str "title"),
   ("type", PVal.str "text"), ("isCommonProperty", PVal.bool true)]

/-- The fixed `Date added` common property descriptor. -/
def creationDateCommonProp : Dict :=
  [("label", PVal.str "Date added"), ("name", PVal.str "creationDate"),
   ("type", PVal.str "date"), ("isCommonProperty", PVal.bool true)]

/-- The fixed `Date modified` common property descriptor. -/
def editDateCommonProp : Dict :=
  [("label", PVal.str "Date modified"), ("name", PVal.str "editDate"),
   ("type", PVal.str "date"), ("isCommonProperty", PVal.bool true)]

/-- The `commonProperties` list built by both create_template variants. -/
def commonPropertiesFixed : List Dict :=
  [titleCommonProp, creationDateCommonProp, editDateCommonProp]

/-- The `template_dict` payload submitted to the CMS, with its keys in
source order; `properties` holds the cleaned user properties and
`commonProperties` the fixed trailing section. -/
structure TemplatePayload where
  name : String
  color : String
  entityViewPage : String
  properties : List Dict
  commonProperties : List Dict
deriving DecidableEq, Repr

/-- Construction of `template_dict` (identical in both variants). -/
def mkTemplateDict (name color : String) (cleaned : List Dict) : TemplatePayload :=
  { name := name, color := color, entityViewPage := "",
    properties := cleaned, commonProperties := commonPropertiesFixed }

/-- The ordered concatenation of the two property sections of the
payload: the common properties come after the user properties. -/
def allProperties (t : TemplatePayload) : List Dict :=
  t.properties ++ t.commonProperties

/-! ### Entities and the pagination loop -/

/-- A metadata value of an entity: a scalar or a sequence. -/
inductive MVal where
  | scalar : PVal → MVal
  | list : List PVal → MVal
deriving DecidableEq, Repr

/-- Python `str()` of a metadata value; a sequence prints as a Python
list literal using `repr()` of its elements. -/
def MVal.pyStr : MVal → String
  | .scalar v => v.pyStr
  | .list items => "[" ++ String.intercalate ", " (items.map PVal.pyRepr) ++ "]"

/-- A raw entity record returned by the CMS collaborator; `none` models
an absent key (the code tests membership with `in`). -/
structure Entity where
  _id : Option String
  sharedId : Option String
  title : Option String
  template : Option String
  metadata : Option (List (String × MVal))
deriving DecidableEq, Repr

/-- Fuel-indexed embedding of the pagination `while` loop shared by
both get_all_entities variants (create_template.py lines 277-288,
uwazi_agent_interface.py lines 113-124). The collaborator `get` is
`uwazi.entities.get`, taking `start_from`, `batch_size`, `template_id`
and `language`; an `Except.error` models a raised fetch failure, which
is not caught inside the loop. The result records the accumulated
entities and the number of fetch calls performed, or `none` when the
loop does not terminate within `fuel` iterations. -/
def fetch_loop (get : Nat → Nat → String → String → Except String (List Entity))
    (batch_size : Nat) (template_id language : String) :
    Nat → Nat → List Entity → Nat → Option (Except String (List Entity) × Nat)
  | 0, _, _, _ => none
  | fuel + 1, start_from, acc, calls =>
    match get start_from batch_size template_id language with
    | .error e => some (.error e, calls + 1)
    | .ok batch =>
      if batch.isEmpty then some (.ok acc, calls + 1)
      else if batch.length < batch_size then some (.ok (acc ++ batch), calls + 1)
      else fetch_loop get batch_size template_id language fuel
             (start_from + batch_size) (acc ++ batch) (calls + 1)

/-- Modelled from the claim wording for the pagination contract: given
the finite sequence of batches a fake collaborator returns (calls past
the end of the sequence receive the empty batch), the expected result
is the concatenation of the batches up to and including the first batch
that is empty or strictly shorter than `batch_size`, paired with the
number of fetch calls, namely the number of batches consumed. -/
def specBatchesConsumed (batch_size : Nat) : List (List Entity) → List Entity × Nat
  | [] => ([], 1)
  | b :: bs =>
    if b.isEmpty then ([], 1)
    else if b.length < batch_size then (b, 1)
    else
      let rest := specBatchesConsumed batch_size bs
      (b ++ rest.1, rest.2 + 1)

/-! ### XML rendering of entities -/

/-- Field selection shared by both get_all_entities variants: `"all"`
expands to the full field list, otherwise the comma-separated tokens
are stripped. -/
def requestedEntityFields (fields : String) : List String :=
  if fields == "all" then ["id", "sharedId", "title", "template", "metadata"]
  else (fields.splitOn ",").map String.trim

/-- The `<item>` lines produced for the elements of a sequence metadata
value (create_template.py line 321-322). -/
def ctItemLines : List PVal → List String
  | [] => []
  | item :: rest => ("        <item>" ++ item.pyStr ++ "</item>") :: ctItemLines rest

/-- The metadata lines produced by create_template.py (lines 317-325):
a sequence value becomes a wrapper element named after the key holding
one `<item>` line per element; a scalar value becomes a single element
named after the key. -/
def ctMetadataLines : List (String × MVal) → List String
  | [] => []
  | (key, value) :: rest =>
    (match value with
     | .list items =>
       ("      <" ++ key ++ ">") :: (ctItemLines items ++ ["      </" ++ key ++ ">"])
     | .scalar v =>
       ["      <" ++ key ++ ">" ++ v.pyStr ++ "</" ++ key ++ ">"]) ++ ctMetadataLines rest

/-- The metadata lines produced by uwazi_agent_interface.py (lines
153-154): every value, sequence or scalar, becomes a single element
holding its Python string form. -/
def uaiMetadataLines : List (String × MVal) → List String
  | [] => []
  | (key, value) :: rest =>
    ("      <" ++ key ++ ">" ++ value.pyStr ++ "</" ++ key ++ ">") :: uaiMetadataLines rest

/-- The lines of one `<entity>` block, parameterised by the renderer
used for the metadata mapping (the only line that differs between the
two variants); the metadata section is emitted only when selected,
present and non-empty. -/
def entityLines (metaLines : List (String × MVal) → List String)
    (requested : List String) (e : Entity) : List String :=
  ["  <entity>"]
  ++ (if requested.contains "id" && e._id.isSome then
        ["    <id>" ++ e._id.getD "" ++ "</id>"] else [])
  ++ (if requested.contains "sharedId" && e.sharedId.isSome then
        ["    <sharedId>" ++ e.sharedId.getD "" ++ "</sharedId>"] else [])
  ++ (if requested.contains "title" && e.title.isSome then
        ["    <title>" ++ e.title.getD "" ++ "</title>"] else [])
  ++ (if requested.contains "template" && e.template.isSome then
        ["    <template>" ++ e.template.getD "" ++ "</template>"] else [])
  ++ (if requested.contains "metadata" && e.metadata.isSome then
        (let md := e.metadata.getD []
         if md.isEmpty then []
         else ["    <metadata>"] ++ metaLines md ++ ["    </metadata>"])
      else [])
  ++ ["  </entity>"]

/-! ### XML rendering of templates -/

/-- A raw template record returned by `uwazi.templates.get()`; the code
reads `_id` and `name` with `.get(key, "")` and the two property lists
with `.get(key, [])`. -/
structure TemplateRec where
  _id : Option String
  name : Option String
  properties : List Dict
  commonProperties : List Dict
deriving DecidableEq, Repr

/-- Python truthiness of `d.get(k)`: an absent key yields `None`, which
is falsy. -/
def optTruthy : Option PVal → Bool
  | none => false
  | some v => v.truthy

/-- Rendering of `prop.get(k, "")` inside an f-string. -/
def propFieldStr (p : Dict) (k : String) : String :=
  ((p.lookup k).getD (PVal.str "")).pyStr

/-- Rendering of `prop.get(k, False)` inside an f-string. -/
def propFlagStr (p : Dict) (k : String) : String :=
  ((p.lookup k).getD (PVal.bool false)).pyStr

/-- The `<property>` block with name, type and optional label, used for
the `properties` section of uwazi_agent_interface.py and for the
`commonProperties` section of both variants. -/
def basicPropLines (p : Dict) : List String :=
  ["      <property>",
   "        <name>" ++ propFieldStr p "name" ++ "</name>",
   "        <type>" ++ propFieldStr p "type" ++ "</type>"]
  ++ (if optTruthy (p.lookup "label") then
        ["        <label>" ++ propFieldStr p "label" ++ "</label>"] else [])
  ++ ["      </property>"]

/-- The `<property>` block of the `properties` section of
create_template.py, which additionally emits truthy `required` and
`filter` flags (lines 215-224). -/
def ctPropLines (p : Dict) : List String :=
  ["      <property>",
   "        <name>" ++ propFieldStr p "name" ++ "</name>",
   "        <type>" ++ propFieldStr p "type" ++ "</type>"]
  ++ (if optTruthy (p.lookup "label") then
        ["        <label>" ++ propFieldStr p "label" ++ "</label>"] else [])
  ++ (if optTruthy (p.lookup "required") then
        ["        <required>" ++ propFlagStr p "required" ++ "</required>"] else [])
  ++ (if optTruthy (p.lookup "filter") then
        ["        <filter>" ++ propFlagStr p "filter" ++ "</filter>"] else [])
  ++ ["      </property>"]

/-- Field selection of both get_all_templates variants. -/
def requestedTemplateFields (fields : String) : List String :=
  if fields == "all" then ["id", "name", "properties", "commonProperties"]
  else (fields.splitOn ",").map String.trim

/-- The lines of one `<template>` block, parameterised by the renderer
for entries of the `properties` section (the only part that differs
between the variants); a selected section wrapper is emitted even when
it is empty. -/
def templateLines (propRender : Dict → List String)
    (requested : List String) (t : TemplateRec) : List String :=
  ["  <template>"]
  ++ (if requested.contains "id" then
        ["    <id>" ++ t._id.getD "" ++ "</id>"] else [])
  ++ (if requested.contains "name" then
        ["    <name>" ++ t.name.getD "" ++ "</name>"] else [])
  ++ (if requested.contains "properties" then
        ["    <properties>"] ++ t.properties.flatMap propRender ++ ["    </properties>"]
      else [])
  ++ (if requested.contains "commonProperties" then
        ["    <commonProperties>"] ++ t.commonProperties.flatMap basicPropLines
          ++ ["    </commonProperties>"]
      else [])
  ++ ["  </template>"]

/-- The XML prologue line shared by every rendered document. -/
def xmlProlog : String := "<?xml version=\"1.0\" encoding=\"UTF-8\"?>"

/-! ### The public operations of create_template.py (namespace CT) -/

/-- The result shape of create_template.py create_template, abstracting
the final `json.dumps` envelope: `errorResult m` stands for the JSON
text of a dictionary with the single key `error` and message `m`, and
`success r ws` stands for the JSON text of the collaborator result `r`
with `validation_warnings` list `ws` attached when `ws` is non-empty. -/
inductive CTOutcome (α : Type) where
  | errorResult : String → CTOutcome α
  | success : α → List String → CTOutcome α
deriving DecidableEq, Repr

/-- The missing-credentials message of both create_template variants. -/
def missingCredsMsg : String :=
  "Missing required environment variables (UWAZI_URL, UWAZI_USER, UWAZI_PASSWORD)"

/-- The missing-credentials XML of create_template.py get_all_templates. -/
def ctTemplatesMissingCredsXml : String :=
  xmlProlog ++ "<templates><error>Missing credentials</error></templates>"

/-- The exception XML of create_template.py get_all_templates. -/
def ctTemplatesErrorXml (e : String) : String :=
  xmlProlog ++ "<templates><error>" ++ e ++ "</error></templates>"

/-- The missing-credentials XML of create_template.py get_all_entities. -/
def ctEntitiesMissingCredsXml : String :=
  xmlProlog ++ "<entities><error>Missing credentials</error></entities>"

/-- The exception XML of create_template.py get_all_entities, carrying
`str(e)` of the raised failure. -/
def ctEntitiesErrorXml (e : String) : String :=
  xmlProlog ++ "<entities><error>" ++ e ++ "</error></entities>"

/-- The empty-stub XML results of uwazi_agent_interface.py, returned
both for missing credentials and for any raised exception. -/
def uaiTemplatesStubXml : String := xmlProlog ++ "<templates></templates>"

/-- The entities stub of uwazi_agent_interface.py. -/
def uaiEntitiesStubXml : String := xmlProlog ++ "<entities></entities>"

namespace CT

/-- create_template.py get_all_templates (lines 167-243): credential
check, fetch from the collaborator, field-filtered XML rendering;
failures render as an `<error>` element inside `<templates>`. -/
def get_all_templates (cfg : Config)
    (getTemplates : Except String (List TemplateRec)) (fields : String) : String :=
  if credentialsPresent cfg then
    match getTemplates with
    | .error e => ctTemplatesErrorXml e
    | .ok ts =>
      String.intercalate "\n"
        ([xmlProlog, "<templates>"]
         ++ ts.flatMap (templateLines ctPropLines (requestedTemplateFields fields))
         ++ ["</templates>"])
  else ctTemplatesMissingCredsXml

/-- create_template.py get_all_entities (lines 246-333): credential
check, the pagination loop, field-filtered XML rendering with an
entity count attribute on the root; a failure raised by the fetch call
renders as an `<error>` element; the result is `none` when the
pagination loop does not terminate within `fuel` iterations. -/
def get_all_entities (cfg : Config)
    (get : Nat → Nat → String → String → Except String (List Entity))
    (template_id fields : String) (batch_size : Nat) (language : String)
    (fuel : Nat) : Option String :=
  if credentialsPresent cfg then
    match fetch_loop get batch_size template_id language fuel 0 [] 0 with
    | none => none
    | some (.error e, _) => some (ctEntitiesErrorXml e)
    | some (.ok entities, _) =>
      some (String.intercalate "\n"
        ([xmlProlog, "<entities count=\"" ++ toString entities.length ++ "\">"]
         ++ entities.flatMap
              (entityLines ctMetadataLines (requestedEntityFields fields))
         ++ ["</entities>"]))
  else some ctEntitiesMissingCredsXml

/-- create_template.py create_template (lines 336-445): credential
check, the cleaning loop with warnings, payload construction, and
submission through the collaborator `setTemplate`; raised exceptions
from either the cleaning loop or the submission are wrapped into the
error result. -/
def create_template {α : Type} (cfg : Config)
    (setTemplate : String → TemplatePayload → Except String α)
    (name : String) (properties : List RawProp) (color language : String) :
    CTOutcome α :=
  if credentialsPresent cfg then
    match cleanProps properties with
    | .error e => .errorResult ("Error creating template: " ++ e)
    | .ok cw =>
      match setTemplate language (mkTemplateDict name color cw.1) with
      | .error e => .errorResult ("Error creating template: " ++ e)
      | .ok r => .success r cw.2
  else .errorResult missingCredsMsg

end CT

/-! ### The public operations of uwazi_agent_interface.py (namespace UAI) -/

/-- The result shape of uwazi_agent_interface.py create_template:
`errorResult m` stands for the returned dictionary with the single key
`error`, and `success r` for the collaborator result returned as is. -/
inductive UAIOutcome (α : Type) where
  | errorResult : String → UAIOutcome α
  | success : α → UAIOutcome α
deriving DecidableEq, Repr

namespace UAI

/-- uwazi_agent_interface.py get_all_templates (lines 7-79): same
structure as the CT variant, but both the missing-credentials case and
any raised exception return the bare empty `<templates></templates>`
stub, and property rendering omits the required and filter flags. -/
def get_all_templates (cfg : Config)
    (getTemplates : Except String (List TemplateRec)) (fields : String) : String :=
  if credentialsPresent cfg then
    match getTemplates with
    | .error _ => uaiTemplatesStubXml
    | .ok ts =>
      String.intercalate "\n"
        ([xmlProlog, "<templates>"]
         ++ ts.flatMap (templateLines basicPropLines (requestedTemplateFields fields))
         ++ ["</templates>"])
  else uaiTemplatesStubXml

/-- uwazi_agent_interface.py get_all_entities (lines 82-162): same
pagination loop as the CT variant, but failures return the bare empty
`<entities></entities>` stub, the root carries no count attribute, and
metadata values are rendered with their Python string form. -/
def get_all_entities (cfg : Config)
    (get : Nat → Nat → String → String → Except String (List Entity))
    (template_id fields : String) (batch_size : Nat) (language : String)
    (fuel : Nat) : Option String :=
  if credentialsPresent cfg then
    match fetch_loop get batch_size template_id language fuel 0 [] 0 with
    | none => none
    | some (.error _, _) => some uaiEntitiesStubXml
    | some (.ok entities, _) =>
      some (String.intercalate "\n"
        ([xmlProlog, "<entities>"]
         ++ entities.flatMap
              (entityLines uaiMetadataLines (requestedEntityFields fields))
         ++ ["</entities>"]))
  else some uaiEntitiesStubXml

/-- uwazi_agent_interface.py create_template (lines 165-277): silent
cleaning without warnings, payload construction, submission. -/
def create_template {α : Type} (cfg : Config)
    (setTemplate : String → TemplatePayload → Except String α)
    (name : String) (properties : List RawProp) (color language : String) :
    UAIOutcome α :=
  if credentialsPresent cfg then
    match setTemplate language (mkTemplateDict name color (cleanPropsUAI properties)) with
    | .error e => .errorResult ("Error creating template: " ++ e)
    | .ok r => .success r
  else .errorResult missingCredsMsg

end UAI

/-! ### Dictionary lemmas -/

theorem lookup_cons (a k : String) (v : PVal) (l : Dict) :
    ((a, v) :: l).lookup k = if k == a then some v else l.lookup k := by
  by_cases h : k == a <;> simp [List.lookup, h]

theorem lookup_append_some {l₁ : Dict} {k : String} {v : PVal} (l₂ : Dict)
    (h : l₁.lookup k = some v) : (l₁ ++ l₂).lookup k = some v := by
  induction l₁ with
  | nil => simp [List.lookup] at h
  | cons kv rest ih =>
    obtain ⟨a, b⟩ := kv
    rw [lookup_cons] at h
    rw [List.cons_append, lookup_cons]
    by_cases hak : k == a
    · simpa [hak] using h
    · simp only [hak, if_false] at h ⊢
      exact ih h

theorem lookup_append_none {l₁ : Dict} {k : String} (l₂ : Dict)
    (h : l₁.lookup k = none) : (l₁ ++ l₂).lookup k = l₂.lookup k := by
  induction l₁ with
  | nil => simp
  | cons kv rest ih =>
    obtain ⟨a, b⟩ := kv
    rw [lookup_cons] at h
    rw [List.cons_append, lookup_cons]
    by_cases hak : k == a
    · simp [hak] at h
    · simp only [hak, if_false] at h ⊢
      exact ih h

theorem lookup_filter_of_pred (p : String → Bool) (d : Dict) (k : String)
    (hk : p k = true) :
    (d.filter (fun kv => p kv.1)).lookup k = d.lookup k := by
  induction d with
  | nil => rfl
  | cons kv rest ih =>
    obtain ⟨a, b⟩ := kv
    by_cases hak : k == a
    · have : a = k := (eq_of_beq hak).symm
      subst this
      simp [List.filter_cons, hk, lookup_cons]
    · by_cases hpa : p a
      · simp [List.filter_cons, hpa, lookup_cons, hak, ih]
      · simp [List.filter_cons, hpa, lookup_cons, hak, ih]

theorem mem_filterValidFields {d : Dict} {kv : String × PVal}
    (h : kv ∈ filterValidFields d) : valid_property_fields.contains kv.1 = true := by
  have := List.mem_filter.mp h
  exact this.2

theorem filterValidFields_eq_self {d : Dict}
    (h : ∀ kv ∈ d, valid_property_fields.contains kv.1 = true) :
    filterValidFields d = d :=
  List.filter_eq_self.mpr h

theorem lookup_filterValidFields (d : Dict) (k : String)
    (hk : valid_property_fields.contains k = true) :
    (filterValidFields d).lookup k = d.lookup k :=
  lookup_filter_of_pred _ d k hk

/-! ### Pagination lemmas -/

theorem fetch_loop_succ (get : Nat → Nat → String → String → Except String (List Entity))
    (batch_size : Nat) (template_id language : String)
    (fuel start_from : Nat) (acc : List Entity) (calls : Nat) :
    fetch_loop get batch_size template_id language (fuel + 1) start_from acc calls =
      match get start_from batch_size template_id language with
      | .error e => some (.error e, calls + 1)
      | .ok batch =>
        if batch.isEmpty then some (.ok acc, calls + 1)
        else if batch.length < batch_size then some (.ok (acc ++ batch), calls + 1)
        else fetch_loop get batch_size template_id language fuel
               (start_from + batch_size) (acc ++ batch) (calls + 1) := rfl

theorem fetch_loop_succ_ok (get : Nat → Nat → String → String → Except String (List Entity))
    (batch_size : Nat) (template_id language : String)
    (fuel start_from : Nat) (acc batch : List Entity) (calls : Nat)
    (h : get start_from batch_size template_id language = .ok batch) :
    fetch_loop get batch_size template_id language (fuel + 1) start_from acc calls =
      (if batch.isEmpty then some (.ok acc, calls + 1)
       else if batch.length < batch_size then some (.ok (acc ++ batch), calls + 1)
       else fetch_loop get batch_size template_id language fuel
              (start_from + batch_size) (acc ++ batch) (calls + 1)) := by
  rw [fetch_loop_succ, h]

theorem fetch_loop_fixed_batches
    (get : Nat → Nat → String → String → Except String (List Entity))
    (batch_size : Nat) (template_id language : String)
    (batches : List (List Entity)) :
    ∀ (s0 : Nat) (acc : List Entity) (calls : Nat),
    (∀ i, get (s0 + i * batch_size) batch_size template_id language
            = .ok (batches.getD i [])) →
    fetch_loop get batch_size template_id language (batches.length + 1) s0 acc calls
      = some (.ok (acc ++ (specBatchesConsumed batch_size batches).1),
              calls + (specBatchesConsumed batch_size batches).2) := by
  induction batches with
  | nil =>
    intro s0 acc calls hget
    have h0 := hget 0
    simp only [Nat.zero_mul, Nat.add_zero, List.getD] at h0
    simp [fetch_loop, h0, specBatchesConsumed]
  | cons b bs ih =>
    intro s0 acc calls hget
    have h0 := hget 0
    simp only [Nat.zero_mul, Nat.add_zero, List.getD_cons_zero] at h0
    by_cases hb : b.isEmpty
    · have hb' : b = [] := by simpa [List.isEmpty_iff] using hb
      subst hb'
      simp [fetch_loop, h0, specBatchesConsumed]
    · by_cases hlen : b.length < batch_size
      · simp [fetch_loop, h0, hb, hlen, specBatchesConsumed]
      · have hget' : ∀ i, get ((s0 + batch_size) + i * batch_size)
            batch_size template_id language = .ok (bs.getD i []) := by
          intro i
          have heq : (s0 + batch_size) + i * batch_size = s0 + (i + 1) * batch_size := by
            ring
          rw [heq]
          simpa using hget (i + 1)
        have hrec := ih (s0 + batch_size) (acc ++ b) (calls + 1) hget'
        have hspec : specBatchesConsumed batch_size (b :: bs)
            = (b ++ (specBatchesConsumed batch_size bs).1,
               (specBatchesConsumed batch_size bs).2 + 1) := by
          simp only [specBatchesConsumed]
          rw [if_neg hb, if_neg hlen]
        simp only [List.length_cons]
        rw [fetch_loop_succ_ok get batch_size template_id language _ _ _ _ _ h0]
        rw [if_neg hb, if_neg hlen, hrec, hspec]
        simp only [List.append_assoc]
        congr 2
        omega

/-- C1: for every `batchSize >= 1` and every collaborator answering the
pagination loop from a fixed finite sequence of batches (requests past
the end of the sequence receive the empty batch), the loop of
`get_all_entities` accumulates exactly the concatenation of the batches
returned up to and including the first batch that is empty or strictly
shorter than `batchSize`, and performs exactly that many fetch calls,
as computed by `specBatchesConsumed`. -/
theorem C1_pagination_exact (batch_size : Nat) (hbs : 1 ≤ batch_size)
    (batches : List (List Entity)) (template_id language : String) :
    fetch_loop (fun s _ _ _ => .ok (batches.getD (s / batch_size) []))
        batch_size template_id language (batches.length + 1) 0 [] 0
      = some (.ok (specBatchesConsumed batch_size batches).1,
              (specBatchesConsumed batch_size batches).2) := by
  have hget : ∀ i, (fun s _ _ _ => (Except.ok (batches.getD (s / batch_size) []) :
      Except String (List Entity))) (0 + i * batch_size) batch_size template_id language
        = .ok (batches.getD i []) := by
    intro i
    have hpos : 0 < batch_size := hbs
    simp [Nat.zero_add, Nat.mul_div_cancel _ hpos]
  have h := fetch_loop_fixed_batches
    (fun s _ _ _ => .ok (batches.getD (s / batch_size) []))
    batch_size template_id language batches 0 [] 0 hget
  simpa using h

/-- Sample entity used in concrete pagination scenarios. -/
def egEntity (i : Nat) : Entity :=
  { _id := some (toString i), sharedId := none, title := none,
    template := none, metadata := none }

/-- The batch sequence of sizes 30, 30, 12 from the claim. -/
def egBatches : List (List Entity) :=
  [(List.range 30).map egEntity,
   (List.range 30).map (fun i => egEntity (30 + i)),
   (List.range 12).map (fun i => egEntity (60 + i))]

/-- Witness for C1: batches of sizes 30, 30, 12 with batch size 30
yield exactly 72 accumulated records after exactly 3 fetch calls, and
an empty first batch yields the empty accumulation after 1 call. -/
theorem C1_pagination_exact_witness :
    (fetch_loop (fun s _ _ _ => .ok (egBatches.getD (s / 30) []))
        30 "tid" "en" (egBatches.length + 1) 0 [] 0
      = some (.ok (specBatchesConsumed 30 egBatches).1,
              (specBatchesConsumed 30 egBatches).2))
    ∧ (specBatchesConsumed 30 egBatches).1.length = 72
    ∧ (specBatchesConsumed 30 egBatches).2 = 3
    ∧ fetch_loop (fun s _ _ _ => .ok (([] : List (List Entity)).getD (s / 30) []))
        30 "tid" "en" 1 0 [] 0 = some (.ok [], 1) := by
  refine ⟨C1_pagination_exact 30 (by decide) egBatches "tid" "en", by decide, by decide, ?_⟩
  have h := C1_pagination_exact 30 (by decide) [] "tid" "en"
  simpa [specBatchesConsumed] using h

/-- C10: with `batch_size = 0` and a collaborator returning a non-empty
batch at offset 0, the pagination loop never terminates: a full batch
advances `start_from` by the batch size, which is zero, so the same
request repeats forever; the fuel-indexed loop returns `none` for every
amount of fuel. -/
theorem C10_zero_batch_size_diverges
    (get : Nat → Nat → String → String → Except String (List Entity))
    (template_id language : String) (b : List Entity)
    (hget : get 0 0 template_id language = .ok b) (hb : b ≠ []) :
    ∀ fuel acc calls,
      fetch_loop get 0 template_id language fuel 0 acc calls = none := by
  intro fuel
  induction fuel with
  | zero => intro acc calls; rfl
  | succ n ih =>
    intro acc calls
    have hbe : b.isEmpty = false := by simpa [List.isEmpty_iff] using hb
    simp only [fetch_loop, hget, hbe, Bool.false_eq_true, if_false,
      Nat.not_lt_zero, Nat.add_zero]
    exact ih (acc ++ b) (calls + 1)

/-- Witness for C10 at a concrete non-empty batch and fuel 7. -/
theorem C10_zero_batch_size_diverges_witness :
    fetch_loop (fun _ _ _ _ => Except.ok [egEntity 0]) 0 "tid" "en" 7 0 [] 0 = none :=
  C10_zero_batch_size_diverges (fun _ _ _ _ => .ok [egEntity 0]) "tid" "en"
    [egEntity 0] rfl (by decide) 7 [] 0

/-! ### Missing credentials and failure propagation (C2, C4) -/

/-- C2 counterexample: with the URL unset, the interface variant of
get_all_templates returns the bare empty templates stub; the returned
payload contains no error marker whatsoever, so it is not a clearly
tagged error payload, and it has the same XML shape as a successful
call that found no templates. -/
theorem C2_counterexample :
    UAI.get_all_templates { url := none, user := some "u", password := some "p" }
        (.ok []) "all" = uaiTemplatesStubXml
    ∧ strContains uaiTemplatesStubXml "error" = false
    ∧ strContains uaiTemplatesStubXml "Error" = false
    ∧ strContains uaiTemplatesStubXml "credentials" = false :=
  ⟨rfl, by decide, by decide, by decide⟩

/-- C2 (amended): for every public operation in both variants, if any
of the three configuration values is absent the operation returns its
designated fixed result before consulting any collaborator and without
raising; in create_template.py the three results are explicitly
error-tagged, while in uwazi_agent_interface.py the two XML tools
return a bare empty element stub with no error tag. -/
theorem C2_missing_credentials (cfg : Config)
    (h : credentialsPresent cfg = false) :
    (∀ (gt : Except String (List TemplateRec)) (fields : String),
       CT.get_all_templates cfg gt fields = ctTemplatesMissingCredsXml)
    ∧ (∀ (get : Nat → Nat → String → String → Except String (List Entity))
         (template_id fields language : String) (batch_size fuel : Nat),
       CT.get_all_entities cfg get template_id fields batch_size language fuel
         = some ctEntitiesMissingCredsXml)
    ∧ (∀ (α : Type) (setTemplate : String → TemplatePayload → Except String α)
         (name : String) (props : List RawProp) (color language : String),
       CT.create_template cfg setTemplate name props color language
         = .errorResult missingCredsMsg)
    ∧ (∀ (gt : Except String (List TemplateRec)) (fields : String),
       UAI.get_all_templates cfg gt fields = uaiTemplatesStubXml)
    ∧ (∀ (get : Nat → Nat → String → String → Except String (List Entity))
         (template_id fields language : String) (batch_size fuel : Nat),
       UAI.get_all_entities cfg get template_id fields batch_size language fuel
         = some uaiEntitiesStubXml)
    ∧ (∀ (α : Type) (setTemplate : String → TemplatePayload → Except String α)
         (name : String) (props : List RawProp) (color language : String),
       UAI.create_template cfg setTemplate name props color language
         = .errorResult missingCredsMsg) := by
  refine ⟨?_, ?_, ?_, ?_, ?_, ?_⟩ <;> intros <;>
    simp [CT.get_all_templates, CT.get_all_entities, CT.create_template,
          UAI.get_all_templates, UAI.get_all_entities, UAI.create_template, h]

/-- Witness for C2 at a concrete configuration with the URL unset. -/
theorem C2_missing_credentials_witness :
    CT.get_all_templates { url := none, user := some "u", password := some "p" }
        (.ok []) "all" = ctTemplatesMissingCredsXml
    ∧ CT.get_all_entities { url := none, user := some "u", password := some "p" }
        (fun _ _ _ _ => .ok []) "t1" "all" 30 "en" 1 = some ctEntitiesMissingCredsXml
    ∧ CT.create_template { url := none, user := some "u", password := some "p" }
        (fun _ t => (.ok t : Except String TemplatePayload)) "Person" [] "#000000" "en"
        = .errorResult missingCredsMsg
    ∧ UAI.get_all_entities { url := none, user := some "u", password := some "p" }
        (fun _ _ _ _ => .ok []) "t1" "all" 30 "en" 1 = some uaiEntitiesStubXml
    ∧ UAI.create_template { url := none, user := some "u", password := some "p" }
        (fun _ t => (.ok t : Except String TemplatePayload)) "Person" [] "#000000" "en"
        = .errorResult missingCredsMsg := by
  have h := C2_missing_credentials
    { url := none, user := some "u", password := some "p" } (by decide)
  exact ⟨h.1 (.ok []) "all",
         h.2.1 (fun _ _ _ _ => .ok []) "t1" "all" "en" 30 1,
         h.2.2.1 TemplatePayload (fun _ t => .ok t) "Person" [] "#000000" "en",
         h.2.2.2.2.1 (fun _ _ _ _ => .ok []) "t1" "all" "en" 30 1,
         h.2.2.2.2.2 TemplatePayload (fun _ t => .ok t) "Person" [] "#000000" "en"⟩

/-- C4 counterexample: when the underlying fetch call raises, the
interface variant of get_all_entities returns the bare empty entities
stub: the result mentions neither an error tag nor the failure message,
so the failure is swallowed into an empty-success-shaped payload
instead of propagating as an explicit failure result. -/
theorem C4_counterexample :
    UAI.get_all_entities { url := some "http://x", user := some "u", password := some "p" }
        (fun _ _ _ _ => .error "boom") "t1" "all" 30 "en" 1 = some uaiEntitiesStubXml
    ∧ strContains uaiEntitiesStubXml "error" = false
    ∧ strContains uaiEntitiesStubXml "boom" = false :=
  ⟨rfl, by decide, by decide⟩

/-- C4 (amended): when the pagination loop ends with a fetch failure,
the create_template.py variant of get_all_entities returns the
error-tagged XML embedding the failure message, never a bare success
shape; the uwazi_agent_interface.py variant instead returns the empty
entities stub. -/
theorem C4_fetch_failure_propagation (cfg : Config)
    (hc : credentialsPresent cfg = true)
    (get : Nat → Nat → String → String → Except String (List Entity))
    (template_id fields language : String) (batch_size fuel calls : Nat) (e : String)
    (hfail : fetch_loop get batch_size template_id language fuel 0 [] 0
               = some (.error e, calls)) :
    CT.get_all_entities cfg get template_id fields batch_size language fuel
        = some (ctEntitiesErrorXml e)
    ∧ UAI.get_all_entities cfg get template_id fields batch_size language fuel
        = some uaiEntitiesStubXml := by
  constructor <;> simp [CT.get_all_entities, UAI.get_all_entities, hc, hfail]

/-- Witness for C4 at a concrete failing collaborator. -/
theorem C4_fetch_failure_propagation_witness :
    CT.get_all_entities { url := some "http://x", user := some "u", password := some "p" }
        (fun _ _ _ _ => .error "boom") "t1" "all" 30 "en" 1
        = some (ctEntitiesErrorXml "boom")
    ∧ UAI.get_all_entities { url := some "http://x", user := some "u", password := some "p" }
        (fun _ _ _ _ => .error "boom") "t1" "all" 30 "en" 1
        = some uaiEntitiesStubXml :=
  C4_fetch_failure_propagation
    { url := some "http://x", user := some "u", password := some "p" } (by decide)
    (fun _ _ _ _ => .error "boom") "t1" "all" "en" 30 1 1 "boom" rfl

/-! ### Metadata rendering (C9) -/

theorem ctItemLines_eq_map (items : List PVal) :
    ctItemLines items
      = items.map (fun it => "        <item>" ++ it.pyStr ++ "</item>") := by
  induction items with
  | nil => rfl
  | cons i rest ih => simp [ctItemLines, ih]

/-- C9: in the create_template.py renderer, a metadata value that is a
sequence is rendered as a wrapper element named after its key holding
one `<item>` child line per sequence element, and a scalar value is
rendered as a single child element named after the key; moreover, for
an entity whose non-empty metadata mapping is selected, these lines
appear inside the `<metadata>` section of its entity block. -/
theorem C9_metadata_rendering :
    (∀ m : List (String × MVal),
      ctMetadataLines m = m.flatMap (fun kv =>
        match kv.2 with
        | .list items =>
          ("      <" ++ kv.1 ++ ">")
            :: (items.map (fun it => "        <item>" ++ it.pyStr ++ "</item>")
                ++ ["      </" ++ kv.1 ++ ">"])
        | .scalar v =>
          ["      <" ++ kv.1 ++ ">" ++ v.pyStr ++ "</" ++ kv.1 ++ ">"]))
    ∧ (∀ (requested : List String) (e : Entity) (md : List (String × MVal)),
        requested.contains "metadata" = true → e.metadata = some md →
        md.isEmpty = false →
        ∃ pre, entityLines ctMetadataLines requested e
          = "  <entity>" :: pre
            ++ ["    <metadata>"] ++ ctMetadataLines md
            ++ ["    </metadata>", "  </entity>"]) := by
  constructor
  · intro m
    induction m with
    | nil => rfl
    | cons kv rest ih =>
      obtain ⟨k, v⟩ := kv
      cases v <;> simp [ctMetadataLines, ctItemLines_eq_map, ih]
  · intro requested e md hsel hmd hne
    refine ⟨(if requested.contains "id" && e._id.isSome then
               ["    <id>" ++ e._id.getD "" ++ "</id>"] else [])
            ++ (if requested.contains "sharedId" && e.sharedId.isSome then
               ["    <sharedId>" ++ e.sharedId.getD "" ++ "</sharedId>"] else [])
            ++ (if requested.contains "title" && e.title.isSome then
               ["    <title>" ++ e.title.getD "" ++ "</title>"] else [])
            ++ (if requested.contains "template" && e.template.isSome then
               ["    <template>" ++ e.template.getD "" ++ "</template>"] else []), ?_⟩
    have hmem : "metadata" ∈ requested := by simpa using hsel
    simp [entityLines, hsel, hmem, hmd, hne]

/-- Witness for C9 at a concrete entity with one sequence value and
one scalar value. -/
theorem C9_metadata_rendering_witness :
    ctMetadataLines [("colors", MVal.list [PVal.str "red", PVal.str "blue"]),
                     ("year", MVal.scalar (PVal.int 2020))]
      = ["      <colors>", "        <item>red</item>", "        <item>blue</item>",
         "      </colors>", "      <year>2020</year>"]
    ∧ ∃ pre, entityLines ctMetadataLines ["metadata"]
        { _id := none, sharedId := none, title := none, template := none,
          metadata := some [("year", MVal.scalar (PVal.int 2020))] }
        = "  <entity>" :: pre
          ++ ["    <metadata>"]
          ++ ctMetadataLines [("year", MVal.scalar (PVal.int 2020))]
          ++ ["    </metadata>", "  </entity>"] := by
  constructor
  · have h := C9_metadata_rendering.1
      [("colors", MVal.list [PVal.str "red", PVal.str "blue"]),
       ("year", MVal.scalar (PVal.int 2020))]
    rw [h]
    decide
  · exact C9_metadata_rendering.2 ["metadata"]
      { _id := none, sharedId := none, title := none, template := none,
        metadata := some [("year", MVal.scalar (PVal.int 2020))] }
      [("year", MVal.scalar (PVal.int 2020))] (by decide) rfl (by decide)

/-! ### Common properties of the submitted payload (C6) -/

/-- The payload submitted by create_template.py for a given input, when
the cleaning loop does not raise. -/
def submittedPayloadCT (name color : String) (props : List RawProp) :
    Option TemplatePayload :=
  match cleanProps props with
  | .error _ => none
  | .ok cw => some (mkTemplateDict name color cw.1)

/-- C6: whatever the input property list, the payload submitted by
create_template carries the three fixed common properties, each exactly
once, as the `commonProperties` section placed after the user
properties; the same holds for the interface variant. -/
theorem C6_common_properties (name color : String) (props : List RawProp)
    (payload : TemplatePayload)
    (h : submittedPayloadCT name color props = some payload) :
    payload.commonProperties
        = [titleCommonProp, creationDateCommonProp, editDateCommonProp]
    ∧ payload.commonProperties.count titleCommonProp = 1
    ∧ payload.commonProperties.count creationDateCommonProp = 1
    ∧ payload.commonProperties.count editDateCommonProp = 1
    ∧ allProperties payload = payload.properties
        ++ [titleCommonProp, creationDateCommonProp, editDateCommonProp]
    ∧ (mkTemplateDict name color (cleanPropsUAI props)).commonProperties
        = [titleCommonProp, creationDateCommonProp, editDateCommonProp] := by
  have hcp : payload.commonProperties = commonPropertiesFixed := by
    unfold submittedPayloadCT at h
    cases hc : cleanProps props with
    | error e => rw [hc] at h; cases h
    | ok cw =>
      rw [hc] at h
      cases h
      rfl
  rw [hcp]
  refine ⟨rfl, by decide, by decide, by decide, ?_, rfl⟩
  simp [allProperties, hcp, commonPropertiesFixed]

/-- Witness for C6 at a concrete input containing one valid property
and one dropped non-dictionary entry. -/
theorem C6_common_properties_witness :
    ∃ payload, submittedPayloadCT "Person" "#4A90E2"
        [RawProp.dict [("label", PVal.str "Full Name"), ("type", PVal.str "text")],
         RawProp.prim (PVal.str "junk")] = some payload
      ∧ payload.commonProperties
          = [titleCommonProp, creationDateCommonProp, editDateCommonProp] := by
  refine ⟨mkTemplateDict "Person" "#4A90E2"
    [[("label", PVal.str "Full Name"), ("type", PVal.str "text"),
      ("name", PVal.str "full_name")]], ?_, ?_⟩
  · rfl
  · exact (C6_common_properties "Person" "#4A90E2"
      [RawProp.dict [("label", PVal.str "Full Name"), ("type", PVal.str "text")],
       RawProp.prim (PVal.str "junk")] _ rfl).1

/-! ### Cleaning-step case lemmas -/

theorem cleanOne_dict_valid (idx : Nat) (d : Dict) (tv : PVal)
    (htv : d.lookup "type" = some tv) (hvalid : isValidType tv = true) :
    cleanOne idx (.dict d)
      = (match deriveNameStep (defaultLabel idx (filterValidFields d)).1 with
         | .error e => .error e
         | .ok cp => .ok (some cp, (defaultLabel idx (filterValidFields d)).2)) := by
  simp [cleanOne, htv, hvalid]

theorem cleanOne_dict_no_type (idx : Nat) (d : Dict)
    (htv : d.lookup "type" = none) :
    cleanOne idx (.dict d) = .ok (none, [missingTypeWarning idx]) := by
  simp [cleanOne, htv]

theorem cleanOne_dict_invalid_type (idx : Nat) (d : Dict) (tv : PVal)
    (htv : d.lookup "type" = some tv) (hvalid : isValidType tv = false) :
    cleanOne idx (.dict d) = .ok (none, [invalidTypeWarning idx tv]) := by
  simp [cleanOne, htv, hvalid]

theorem defaultLabel_present (idx : Nat) {cp : Dict}
    (h : hasKey cp "label" = true) : defaultLabel idx cp = (cp, []) := by
  simp [defaultLabel, h]

theorem defaultLabel_absent (idx : Nat) {cp : Dict}
    (h : hasKey cp "label" = false) :
    defaultLabel idx cp = (cp ++ [("label", PVal.str "")], [missingLabelWarning idx]) := by
  simp [defaultLabel, h]

theorem deriveNameStep_has_name {cp : Dict} (h : hasKey cp "name" = true) :
    deriveNameStep cp = .ok cp := by
  simp [deriveNameStep, h]

theorem deriveNameStep_no_label {cp : Dict} (h1 : hasKey cp "name" = false)
    (h2 : cp.lookup "label" = none) : deriveNameStep cp = .ok cp := by
  simp [deriveNameStep, h1, h2]

theorem deriveNameStep_falsy_label {cp : Dict} {lv : PVal}
    (h1 : hasKey cp "name" = false) (h2 : cp.lookup "label" = some lv)
    (h3 : lv.truthy = false) : deriveNameStep cp = .ok cp := by
  simp [deriveNameStep, h1, h2, h3]

theorem deriveNameStep_derives {cp : Dict} {s : String}
    (h1 : hasKey cp "name" = false) (h2 : cp.lookup "label" = some (.str s))
    (h3 : s ≠ "") :
    deriveNameStep cp = .ok (cp ++ [("name", PVal.str (derive_name s))]) := by
  have ht : (PVal.str s).truthy = true := by simpa [PVal.truthy] using h3
  simp [deriveNameStep, h1, h2, ht]

theorem hasKey_eq_false_iff {cp : Dict} {k : String} :
    hasKey cp k = false ↔ cp.lookup k = none := by
  unfold hasKey
  cases h : cp.lookup k <;> simp [h]

theorem hasKey_of_lookup_some {cp : Dict} {k : String} {v : PVal}
    (h : cp.lookup k = some v) : hasKey cp k = true := by
  simp [hasKey, h]

/-- C5: for a dictionary entry that survives cleaning (valid `type`),
if the key-filtered record has no `name` key but a non-empty string
`label`, the cleaned record gains a `name` equal to the label
lower-cased with every space replaced by an underscore; if the label is
the empty string or absent, no `name` is derived. The derived-value
conjunct is stated for labels made of ASCII characters, the fragment on
which the embedded case mapping (`derive_name`, via `Char.toLower`)
coincides exactly with Python `str.lower()`; the no-derivation
conjuncts involve no case mapping and are unconditional. -/
theorem C5_name_derivation (idx : Nat) (d : Dict) (tv : PVal)
    (htv : d.lookup "type" = some tv) (hvalid : isValidType tv = true)
    (hname : (filterValidFields d).lookup "name" = none) :
    (∀ s : String, (∀ c ∈ s.data, c.toNat < 128) →
       (filterValidFields d).lookup "label" = some (.str s) → s ≠ "" →
       cleanOne idx (.dict d)
           = .ok (some (filterValidFields d ++ [("name", PVal.str (derive_name s))]), [])
       ∧ (filterValidFields d ++ [("name", PVal.str (derive_name s))]).lookup "name"
           = some (PVal.str (derive_name s)))
    ∧ ((filterValidFields d).lookup "label" = some (.str "") →
       cleanOne idx (.dict d) = .ok (some (filterValidFields d), [])
       ∧ (filterValidFields d).lookup "name" = none)
    ∧ ((filterValidFields d).lookup "label" = none →
       cleanOne idx (.dict d)
           = .ok (some (filterValidFields d ++ [("label", PVal.str "")]),
                  [missingLabelWarning idx])
       ∧ (filterValidFields d ++ [("label", PVal.str "")]).lookup "name" = none) := by
  have hkname : hasKey (filterValidFields d) "name" = false :=
    hasKey_eq_false_iff.mpr hname
  refine ⟨?_, ?_, ?_⟩
  · intro s _hascii hlab hs
    have hklab : hasKey (filterValidFields d) "label" = true :=
      hasKey_of_lookup_some hlab
    constructor
    · rw [cleanOne_dict_valid idx d tv htv hvalid, defaultLabel_present idx hklab]
      rw [deriveNameStep_derives hkname hlab hs]
    · rw [lookup_append_none _ hname]
      simp [List.lookup]
  · intro hlab
    have hklab : hasKey (filterValidFields d) "label" = true :=
      hasKey_of_lookup_some hlab
    constructor
    · rw [cleanOne_dict_valid idx d tv htv hvalid, defaultLabel_present idx hklab]
      rw [deriveNameStep_falsy_label hkname hlab (by simp [PVal.truthy])]
    · exact hname
  · intro hlab
    have hklab : hasKey (filterValidFields d) "label" = false :=
      hasKey_eq_false_iff.mpr hlab
    have hname2 : (filterValidFields d ++ [("label", PVal.str "")]).lookup "name"
        = none := by
      rw [lookup_append_none _ hname]
      simp [List.lookup]
    have hlab2 : (filterValidFields d ++ [("label", PVal.str "")]).lookup "label"
        = some (PVal.str "") := by
      rw [lookup_append_none _ hlab]
      simp [List.lookup]
    constructor
    · rw [cleanOne_dict_valid idx d tv htv hvalid, defaultLabel_absent idx hklab]
      rw [deriveNameStep_falsy_label (hasKey_eq_false_iff.mpr hname2) hlab2
        (by simp [PVal.truthy])]
    · exact hname2

/-- Witness for C5 at the three concrete label situations; the derived
case uses the ASCII label `Full Name`. -/
theorem C5_name_derivation_witness :
    (cleanOne 0 (.dict [("label", PVal.str "Full Name"), ("type", PVal.str "text")])
       = .ok (some [("label", PVal.str "Full Name"), ("type", PVal.str "text"),
                    ("name", PVal.str "full_name")], []))
    ∧ (cleanOne 1 (.dict [("label", PVal.str ""), ("type", PVal.str "text")])
       = .ok (some [("label", PVal.str ""), ("type", PVal.str "text")], []))
    ∧ (cleanOne 2 (.dict [("type", PVal.str "text")])
       = .ok (some [("type", PVal.str "text"), ("label", PVal.str "")],
              [missingLabelWarning 2])) := by
  refine ⟨?_, ?_, ?_⟩
  · have h := (C5_name_derivation 0
      [("label", PVal.str "Full Name"), ("type", PVal.str "text")]
      (PVal.str "text") rfl (by decide) (by decide)).1 "Full Name"
      (by decide) (by decide) (by decide)
    have := h.1
    simpa [filterValidFields] using this
  · have h := (C5_name_derivation 1
      [("label", PVal.str ""), ("type", PVal.str "text")]
      (PVal.str "text") rfl (by decide) (by decide)).2.1 (by decide)
    simpa [filterValidFields] using h.1
  · have h := (C5_name_derivation 2 [("type", PVal.str "text")]
      (PVal.str "text") rfl (by decide) (by decide)).2.2 (by decide)
    simpa [filterValidFields] using h.1

/-! ### Surviving-property count (C7) -/

/-- The shape an input entry must have to survive cleaning: a key/value
record whose `type` value belongs to the valid-type enumeration. -/
def validPropShape : RawProp → Bool
  | .prim _ => false
  | .dict d =>
    match d.lookup "type" with
    | none => false
    | some tv => isValidType tv

theorem cleanOne_isSome_eq_shape (idx : Nat) (p : RawProp)
    (o : Option Dict) (w : List String) (h : cleanOne idx p = .ok (o, w)) :
    o.isSome = validPropShape p := by
  cases p with
  | prim v =>
    simp [cleanOne] at h
    simp [validPropShape, ← h.1]
  | dict d =>
    cases htv : d.lookup "type" with
    | none =>
      rw [cleanOne_dict_no_type idx d htv] at h
      simp at h
      simp [validPropShape, htv, ← h.1]
    | some tv =>
      cases hvalid : isValidType tv with
      | false =>
        rw [cleanOne_dict_invalid_type idx d tv htv hvalid] at h
        simp at h
        simp [validPropShape, htv, hvalid, ← h.1]
      | true =>
        rw [cleanOne_dict_valid idx d tv htv hvalid] at h
        cases hd : deriveNameStep (defaultLabel idx (filterValidFields d)).1 with
        | error e => rw [hd] at h; cases h
        | ok cp =>
          rw [hd] at h
          simp at h
          simp [validPropShape, htv, hvalid, ← h.1]

theorem cleanOneUAI_isSome_eq_shape (p : RawProp) :
    (cleanOneUAI p).isSome = validPropShape p := by
  cases p with
  | prim v => rfl
  | dict d =>
    cases htv : d.lookup "type" with
    | none => simp [cleanOneUAI, validPropShape, htv]
    | some tv =>
      cases hvalid : isValidType tv <;>
        simp [cleanOneUAI, validPropShape, htv, hvalid]

theorem cleanPropsFrom_length (props : List RawProp) :
    ∀ (idx : Nat) (cleaned : List Dict) (warns : List String),
    cleanPropsFrom idx props = .ok (cleaned, warns) →
    cleaned.length ≤ props.length
    ∧ (cleaned.length = props.length ↔ ∀ p ∈ props, validPropShape p = true) := by
  induction props with
  | nil =>
    intro idx cleaned warns h
    simp [cleanPropsFrom] at h
    simp [← h.1]
  | cons p ps ih =>
    intro idx cleaned warns h
    cases hc1 : cleanOne idx p with
    | error e => simp [cleanPropsFrom, hc1] at h
    | ok ow =>
      cases hc2 : cleanPropsFrom (idx + 1) ps with
      | error e => simp [cleanPropsFrom, hc1, hc2] at h
      | ok rw2 =>
        simp only [cleanPropsFrom, hc1, hc2, Except.ok.injEq] at h
        obtain ⟨o, w⟩ := ow
        obtain ⟨rest, ws2⟩ := rw2
        obtain ⟨hrest, hiff⟩ := ih (idx + 1) rest ws2 hc2
        have hshape := cleanOne_isSome_eq_shape idx p o w hc1
        cases o with
        | none =>
          have hcl : cleaned = rest := by
            have := congrArg Prod.fst h
            simpa using this.symm
          subst hcl
          constructor
          · exact Nat.le_succ_of_le hrest
          · constructor
            · intro hlen
              exfalso
              simp only [List.length_cons] at hlen
              omega
            · intro hall
              exfalso
              have := hall p (List.mem_cons_self p ps)
              simp [← hshape] at this
        | some cp =>
          have hcl : cleaned = cp :: rest := by
            have := congrArg Prod.fst h
            simpa using this.symm
          subst hcl
          constructor
          · simpa using Nat.succ_le_succ hrest
          · simp only [List.length_cons, Nat.succ.injEq, List.mem_cons]
            constructor
            · intro hlen q hq
              rcases hq with hq | hq
              · subst hq; simp [← hshape]
              · exact (hiff.mp (by omega)) q hq
            · intro hall
              have := hiff.mpr (fun q hq => hall q (Or.inr hq))
              omega

theorem cleanPropsUAI_length (props : List RawProp) :
    (cleanPropsUAI props).length ≤ props.length
    ∧ ((cleanPropsUAI props).length = props.length
        ↔ ∀ p ∈ props, validPropShape p = true) := by
  induction props with
  | nil => simp [cleanPropsUAI]
  | cons p ps ih =>
    obtain ⟨hle, hiff⟩ := ih
    have hshape := cleanOneUAI_isSome_eq_shape p
    cases ho : cleanOneUAI p with
    | none =>
      constructor
      · simp only [cleanPropsUAI, List.filterMap_cons, ho]
        exact Nat.le_succ_of_le hle
      · constructor
        · intro hlen
          exfalso
          simp only [cleanPropsUAI, List.filterMap_cons, ho] at hlen
          simp only [cleanPropsUAI] at hle
          simp at hlen
          omega
        · intro hall
          exfalso
          have := hall p (List.mem_cons_self p ps)
          rw [← hshape, ho] at this
          cases this
    | some cp =>
      constructor
      · simp only [cleanPropsUAI, List.filterMap_cons, ho, List.length_cons]
        simpa using Nat.succ_le_succ hle
      · simp only [cleanPropsUAI, List.filterMap_cons, ho, List.length_cons,
          List.length_cons, List.mem_cons]
        constructor
        · intro hlen q hq
          rcases hq with hq | hq
          · subst hq; simp [← hshape, ho]
          · refine (hiff.mp ?_) q hq
            simp only [cleanPropsUAI]
            omega
        · intro hall
          have := hiff.mpr (fun q hq => hall q (Or.inr hq))
          simp only [cleanPropsUAI] at this
          omega

/-- C7: the number of surviving user properties is at most the input
length, with equality exactly when every input entry is a key/value
record whose `type` belongs to the valid-type enumeration (no entry is
dropped); the same holds for the interface variant of the loop. -/
theorem C7_survivor_count (props : List RawProp) (cleaned : List Dict)
    (warns : List String) (h : cleanProps props = .ok (cleaned, warns)) :
    cleaned.length ≤ props.length
    ∧ (cleaned.length = props.length ↔ ∀ p ∈ props, validPropShape p = true)
    ∧ (cleanPropsUAI props).length ≤ props.length
    ∧ ((cleanPropsUAI props).length = props.length
        ↔ ∀ p ∈ props, validPropShape p = true) := by
  obtain ⟨h1, h2⟩ := cleanPropsFrom_length props 0 cleaned warns h
  obtain ⟨h3, h4⟩ := cleanPropsUAI_length props
  exact ⟨h1, h2, h3, h4⟩

/-- Witness for C7: two surviving entries out of three, strictly fewer
than the input length because one entry is dropped. -/
theorem C7_survivor_count_witness :
    ([[("label", PVal.str "A"), ("type", PVal.str "text"),
       ("name", PVal.str "a")],
      [("type", PVal.str "date"), ("label", PVal.str "")]] :
        List Dict).length
      ≤ ([RawProp.dict [("label", PVal.str "A"), ("type", PVal.str "text"),
            ("name", PVal.str "a")],
          RawProp.prim (PVal.str "junk"),
          RawProp.dict [("type", PVal.str "date")]] : List RawProp).length
    ∧ ¬ (([[("label", PVal.str "A"), ("type", PVal.str "text"),
            ("name", PVal.str "a")],
           [("type", PVal.str "date"), ("label", PVal.str "")]] :
             List Dict).length
         = ([RawProp.dict [("label", PVal.str "A"), ("type", PVal.str "text"),
               ("name", PVal.str "a")],
             RawProp.prim (PVal.str "junk"),
             RawProp.dict [("type", PVal.str "date")]] : List RawProp).length) := by
  have h := C7_survivor_count
    [RawProp.dict [("label", PVal.str "A"), ("type", PVal.str "text"),
       ("name", PVal.str "a")],
     RawProp.prim (PVal.str "junk"),
     RawProp.dict [("type", PVal.str "date")]]
    [[("label", PVal.str "A"), ("type", PVal.str "text"), ("name", PVal.str "a")],
     [("type", PVal.str "date"), ("label", PVal.str "")]]
    [notDictWarning 1, missingLabelWarning 2]
    (by rfl)
  refine ⟨h.1, ?_⟩
  intro heq
  have := (h.2.1.mp heq) (RawProp.prim (PVal.str "junk")) (by simp)
  cases this

/-! ### Per-property warnings (C3) -/

/-- C3: each per-property drop (non-record entry, missing `type`,
invalid `type`) and each defaulted missing label records exactly one
warning and yields a normal (non-raising) step result, never aborting
the loop; when the cleaning loop and the submission succeed, the
operation returns the success result with the accumulated warnings
attached; in particular the single input with label `X` and type
`bogus` yields zero surviving user properties and exactly one warning
mentioning invalid type. -/
theorem C3_per_property_warnings :
    (∀ (cfg : Config) (α : Type)
       (setTemplate : String → TemplatePayload → Except String α)
       (name : String) (props : List RawProp) (color language : String)
       (cleaned : List Dict) (warns : List String) (r : α),
       credentialsPresent cfg = true →
       cleanProps props = .ok (cleaned, warns) →
       setTemplate language (mkTemplateDict name color cleaned) = .ok r →
       CT.create_template cfg setTemplate name props color language
         = .success r warns)
    ∧ (∀ (idx : Nat) (v : PVal),
         cleanOne idx (.prim v) = .ok (none, [notDictWarning idx]))
    ∧ (∀ (idx : Nat) (d : Dict), d.lookup "type" = none →
         cleanOne idx (.dict d) = .ok (none, [missingTypeWarning idx]))
    ∧ (∀ (idx : Nat) (d : Dict) (tv : PVal),
         d.lookup "type" = some tv → isValidType tv = false →
         cleanOne idx (.dict d) = .ok (none, [invalidTypeWarning idx tv]))
    ∧ (∀ (idx : Nat) (d : Dict) (tv : PVal),
         d.lookup "type" = some tv → isValidType tv = true →
         hasKey (filterValidFields d) "label" = false →
         cleanOne idx (.dict d)
           = .ok (some (filterValidFields d ++ [("label", PVal.str "")]),
                  [missingLabelWarning idx]))
    ∧ CT.create_template
        { url := some "http://x", user := some "u", password := some "p" }
        (fun _ t => (.ok t : Except String TemplatePayload)) "T"
        [RawProp.dict [("label", PVal.str "X"), ("type", PVal.str "bogus")]]
        "#000000" "en"
      = .success (mkTemplateDict "T" "#000000" [])
          [invalidTypeWarning 0 (PVal.str "bogus")]
    ∧ strContains (invalidTypeWarning 0 (PVal.str "bogus")) "invalid type" = true := by
  refine ⟨?_, ?_, ?_, ?_, ?_, by rfl, by decide⟩
  · intro cfg α setTemplate name props color language cleaned warns r hc hclean hset
    simp [CT.create_template, hc, hclean, hset]
  · intro idx v
    rfl
  · intro idx d htv
    exact cleanOne_dict_no_type idx d htv
  · intro idx d tv htv hvalid
    exact cleanOne_dict_invalid_type idx d tv htv hvalid
  · intro idx d tv htv hvalid hkl
    rw [cleanOne_dict_valid idx d tv htv hvalid, defaultLabel_absent idx hkl]
    have hlab2 : (filterValidFields d ++ [("label", PVal.str "")]).lookup "label"
        = some (PVal.str "") := by
      rw [lookup_append_none _ (hasKey_eq_false_iff.mp hkl)]
      simp [List.lookup]
    cases hkn : hasKey (filterValidFields d ++ [("label", PVal.str "")]) "name" with
    | true => rw [deriveNameStep_has_name hkn]
    | false => rw [deriveNameStep_falsy_label hkn hlab2 (by simp [PVal.truthy])]

/-- Witness for C3 at concrete drops and a concrete successful run. -/
theorem C3_per_property_warnings_witness :
    CT.create_template
        { url := some "http://x", user := some "u", password := some "p" }
        (fun _ t => (.ok t : Except String TemplatePayload)) "N"
        [RawProp.prim (PVal.str "junk"), RawProp.dict [("label", PVal.str "ok")]]
        "#000000" "en"
      = .success (mkTemplateDict "N" "#000000" [])
          [notDictWarning 0, missingTypeWarning 1]
    ∧ cleanOne 4 (.dict [("label", PVal.str "B"), ("type", PVal.str "nope")])
      = .ok (none, [invalidTypeWarning 4 (PVal.str "nope")])
    ∧ cleanOne 5 (.dict [("type", PVal.str "date")])
      = .ok (some [("type", PVal.str "date"), ("label", PVal.str "")],
             [missingLabelWarning 5]) := by
  refine ⟨?_, ?_, ?_⟩
  · exact C3_per_property_warnings.1
      { url := some "http://x", user := some "u", password := some "p" }
      TemplatePayload (fun _ t => .ok t) "N"
      [RawProp.prim (PVal.str "junk"), RawProp.dict [("label", PVal.str "ok")]]
      "#000000" "en" [] [notDictWarning 0, missingTypeWarning 1]
      (mkTemplateDict "N" "#000000" []) (by decide) (by rfl) (by rfl)
  · exact C3_per_property_warnings.2.2.2.1 4
      [("label", PVal.str "B"), ("type", PVal.str "nope")]
      (PVal.str "nope") rfl (by decide)
  · have h := C3_per_property_warnings.2.2.2.2.1 5
      [("type", PVal.str "date")] (PVal.str "date") rfl (by decide) (by decide)
    simpa [filterValidFields] using h

/-! ### Idempotence of the cleaning loop (C8) -/

theorem cleanOne_dict_valid_inv (idx : Nat) (d : Dict) (tv : PVal)
    (cp : Dict) (ws : List String)
    (htv : d.lookup "type" = some tv) (hvalid : isValidType tv = true)
    (h : cleanOne idx (.dict d) = .ok (some cp, ws)) :
    deriveNameStep (defaultLabel idx (filterValidFields d)).1 = .ok cp
    ∧ ws = (defaultLabel idx (filterValidFields d)).2 := by
  rw [cleanOne_dict_valid idx d tv htv hvalid] at h
  cases hd : deriveNameStep (defaultLabel idx (filterValidFields d)).1 with
  | error e => rw [hd] at h; cases h
  | ok cp2 =>
    rw [hd] at h
    simp only [Except.ok.injEq, Prod.mk.injEq, Option.some.injEq] at h
    refine ⟨?_, h.2.symm⟩
    rw [h.1]

theorem cleanOne_second_pass (idx' : Nat) (cp1 cp : Dict) (tv : PVal)
    (htv : cp1.lookup "type" = some tv) (hvalid : isValidType tv = true)
    (hkeys : ∀ kv ∈ cp1, valid_property_fields.contains kv.1 = true)
    (hlab : hasKey cp1 "label" = true)
    (hd : deriveNameStep cp1 = .ok cp) :
    cleanOne idx' (.dict cp) = .ok (some cp, []) := by
  have hf : filterValidFields cp1 = cp1 := filterValidFields_eq_self hkeys
  cases hkn : hasKey cp1 "name" with
  | true =>
    rw [deriveNameStep_has_name hkn] at hd
    injection hd with hd
    subst hd
    simp [cleanOne_dict_valid idx' cp1 tv htv hvalid, hf,
          defaultLabel_present idx' hlab, deriveNameStep_has_name hkn]
  | false =>
    cases hll : cp1.lookup "label" with
    | none => simp [hasKey, hll] at hlab
    | some lv =>
      cases htr : lv.truthy with
      | false =>
        rw [deriveNameStep_falsy_label hkn hll htr] at hd
        injection hd with hd
        subst hd
        simp [cleanOne_dict_valid idx' cp1 tv htv hvalid, hf,
              defaultLabel_present idx' hlab,
              deriveNameStep_falsy_label hkn hll htr]
      | true =>
        cases lv with
        | bool b => simp [deriveNameStep, hkn, hll, htr] at hd
        | int n => simp [deriveNameStep, hkn, hll, htr] at hd
        | str s =>
          have hs : s ≠ "" := by simpa [PVal.truthy] using htr
          rw [deriveNameStep_derives hkn hll hs] at hd
          injection hd with hd
          subst hd
          have htv2 : (cp1 ++ [("name", PVal.str (derive_name s))]).lookup "type"
              = some tv := lookup_append_some _ htv
          have hkeys2 : ∀ kv ∈ cp1 ++ [("name", PVal.str (derive_name s))],
              valid_property_fields.contains kv.1 = true := by
            intro kv hkv
            rcases List.mem_append.mp hkv with h1 | h1
            · exact hkeys kv h1
            · simp only [List.mem_singleton] at h1
              subst h1
              show valid_property_fields.contains "name" = true
              decide
          have hf2 : filterValidFields (cp1 ++ [("name", PVal.str (derive_name s))])
              = cp1 ++ [("name", PVal.str (derive_name s))] :=
            filterValidFields_eq_self hkeys2
          have hlab2 : hasKey (cp1 ++ [("name", PVal.str (derive_name s))]) "label"
              = true := hasKey_of_lookup_some (lookup_append_some _ hll)
          have hname2 : hasKey (cp1 ++ [("name", PVal.str (derive_name s))]) "name"
              = true := by
            refine hasKey_of_lookup_some (v := PVal.str (derive_name s)) ?_
            rw [lookup_append_none _ (hasKey_eq_false_iff.mp hkn)]
            simp [List.lookup]
          simp [cleanOne_dict_valid idx' _ tv htv2 hvalid, hf2,
                defaultLabel_present idx' hlab2, deriveNameStep_has_name hname2]

theorem cleanOne_output_stable (idx idx' : Nat) (p : RawProp) (cp : Dict)
    (ws : List String) (h : cleanOne idx p = .ok (some cp, ws)) :
    cleanOne idx' (.dict cp) = .ok (some cp, []) := by
  cases p with
  | prim v => simp [cleanOne] at h
  | dict d =>
    cases htv : d.lookup "type" with
    | none => rw [cleanOne_dict_no_type idx d htv] at h; simp at h
    | some tv =>
      cases hvalid : isValidType tv with
      | false => rw [cleanOne_dict_invalid_type idx d tv htv hvalid] at h; simp at h
      | true =>
        obtain ⟨hd, hws⟩ := cleanOne_dict_valid_inv idx d tv cp ws htv hvalid h
        have htv1 : (filterValidFields d).lookup "type" = some tv := by
          rw [lookup_filterValidFields d "type" (by decide)]
          exact htv
        cases hkl : hasKey (filterValidFields d) "label" with
        | true =>
          simp only [defaultLabel_present idx hkl] at hd
          exact cleanOne_second_pass idx' (filterValidFields d) cp tv htv1 hvalid
            (fun kv hkv => mem_filterValidFields hkv) hkl hd
        | false =>
          simp only [defaultLabel_absent idx hkl] at hd
          have htvA : (filterValidFields d ++ [("label", PVal.str "")]).lookup "type"
              = some tv := lookup_append_some _ htv1
          have hkeysA : ∀ kv ∈ filterValidFields d ++ [("label", PVal.str "")],
              valid_property_fields.contains kv.1 = true := by
            intro kv hkv
            rcases List.mem_append.mp hkv with h1 | h1
            · exact mem_filterValidFields h1
            · simp only [List.mem_singleton] at h1
              subst h1
              decide
          have hlabA : hasKey (filterValidFields d ++ [("label", PVal.str "")]) "label"
              = true := by
            refine hasKey_of_lookup_some (v := PVal.str "") ?_
            rw [lookup_append_none _ (hasKey_eq_false_iff.mp hkl)]
            simp [List.lookup]
          exact cleanOne_second_pass idx' (filterValidFields d ++ [("label", PVal.str "")])
            cp tv htvA hvalid hkeysA hlabA hd

theorem cleanPropsFrom_idem (props : List RawProp) :
    ∀ (idx : Nat) (cleaned : List Dict) (warns : List String),
    cleanPropsFrom idx props = .ok (cleaned, warns) →
    ∀ idx', cleanPropsFrom idx' (cleaned.map RawProp.dict) = .ok (cleaned, []) := by
  induction props with
  | nil =>
    intro idx cleaned warns h idx'
    simp only [cleanPropsFrom, Except.ok.injEq, Prod.mk.injEq] at h
    rw [← h.1]
    rfl
  | cons p ps ih =>
    intro idx cleaned warns h idx'
    cases hc1 : cleanOne idx p with
    | error e => simp [cleanPropsFrom, hc1] at h
    | ok ow =>
      cases hc2 : cleanPropsFrom (idx + 1) ps with
      | error e => simp [cleanPropsFrom, hc1, hc2] at h
      | ok rw2 =>
        simp only [cleanPropsFrom, hc1, hc2, Except.ok.injEq] at h
        obtain ⟨o, w⟩ := ow
        obtain ⟨rest, ws2⟩ := rw2
        have hcl : cleaned = o.toList ++ rest := by
          have := congrArg Prod.fst h
          simpa using this.symm
        subst hcl
        cases o with
        | none => exact ih (idx + 1) rest ws2 hc2 idx'
        | some cp =>
          have hone := cleanOne_output_stable idx idx' p cp w hc1
          have hrest := ih (idx + 1) rest ws2 hc2 (idx' + 1)
          simp [cleanPropsFrom, hone, hrest]

/-- C8: running the cleaning loop of create_template a second time on
its own surviving output (each cleaned dictionary fed back as an input
record) returns exactly the same list of properties, with no further
warnings: normalization is idempotent. -/
theorem C8_cleaning_idempotent (props : List RawProp) (cleaned : List Dict)
    (warns : List String) (h : cleanProps props = .ok (cleaned, warns)) :
    cleanProps (cleaned.map RawProp.dict) = .ok (cleaned, []) :=
  cleanPropsFrom_idem props 0 cleaned warns h 0

/-- Witness for C8 at a mixed concrete input: a derived name, a
defaulted label and a dropped entry. -/
theorem C8_cleaning_idempotent_witness :
    cleanProps (([[("label", PVal.str "Full Name"), ("type", PVal.str "text"),
                   ("name", PVal.str "full_name")],
                  [("type", PVal.str "date"), ("label", PVal.str "")]] :
                   List Dict).map RawProp.dict)
      = .ok ([[("label", PVal.str "Full Name"), ("type", PVal.str "text"),
               ("name", PVal.str "full_name")],
              [("type", PVal.str "date"), ("label", PVal.str "")]], []) :=
  C8_cleaning_idempotent
    [RawProp.dict [("label", PVal.str "Full Name"), ("type", PVal.str "text"),
       ("junk", PVal.int 1)],
     RawProp.prim (PVal.str "x"),
     RawProp.dict [("type", PVal.str "date")]]
    [[("label", PVal.str "Full Name"), ("type", PVal.str "text"),
      ("name", PVal.str "full_name")],
     [("type", PVal.str "date"), ("label", PVal.str "")]]
    [notDictWarning 1, missingLabelWarning 2]
    (by rfl)

end UwaziAgents
